import Mathlib

/-!
Verification of the ComfyUI-Specter turn-orchestration engine
(`src/specter/providers/base.py` together with the lock and cleanup helpers in
`src/specter/core/browser.py`) against its natural-language specification.

Every definition below is a shallow embedding of the corresponding Python
function of the repository: byte strings become `List Nat`, Python's `in`
substring test becomes `strIn`, awaited browser observations become explicit
trace parameters, provider hook methods (abstract methods of `ChatService`)
become function-valued parameters, and exceptions become `Except` values.
-/

namespace Specter

/-- A byte payload (Python `bytes`). -/
abbrev Bytes := List Nat

/-- Characters `pat` form a prefix of `hay` (helper for the substring test). -/
def charsPrefix : List Char → List Char → Bool
  | [], _ => true
  | _ :: _, [] => false
  | a :: as, b :: bs => a = b && charsPrefix as bs

/-- Characters `pat` occur contiguously somewhere in `hay`. -/
def charsIn (pat : List Char) : List Char → Bool
  | [] => charsPrefix pat []
  | b :: bs => charsPrefix pat (b :: bs) || charsIn pat bs

/-- Python's substring test `pat in hay`. -/
def strIn (pat hay : String) : Bool := charsIn pat.data hay.data

/-- `ServiceConfig` from `providers/base.py` (the fields the orchestration
engine reads; selector tables not consulted by the modelled control flow are
omitted). Field names and default values follow the source. -/
structure ServiceConfig where
  service_name : String
  image_url_patterns : List String := []
  image_min_size : Nat := 50000
  response_timeout : Nat := 90
  image_ready_selector : Option String := none
deriving Repr

/-- `ChatService._matches_image_pattern`: `any(pattern in url for pattern in
self.config.image_url_patterns)`. -/
def matches_image_pattern (cfg : ServiceConfig) (url : String) : Bool :=
  cfg.image_url_patterns.any (fun pattern => strIn pattern url)

/-- `ChatService._select_best_image`: `None` for an empty list, otherwise the
last element (`images[-1]`). -/
def select_best_image (images : List Bytes) : Option Bytes :=
  if images.isEmpty then none else images.getLast?

/-- One `<img>` element examined by `ChatService._extract_images_from_dom`:
its `src` attribute (`None` when absent), whether the follow-up fetch of the
source returned `resp.ok`, and the fetched body. -/
structure DomImage where
  src : Option String
  ok : Bool
  data : Bytes
deriving Repr, DecidableEq

/-- The filter applied to one DOM image candidate in
`ChatService._extract_images_from_dom`: a truthy `src` starting with `http`,
matching the image-URL allowlist, a successful fetch, and a body strictly
larger than `image_min_size`. -/
def domImageQualifies (cfg : ServiceConfig) (im : DomImage) : Bool :=
  match im.src with
  | none => false
  | some s =>
      s.startsWith "http" && matches_image_pattern cfg s && im.ok &&
        decide (cfg.image_min_size < im.data.length)

/-- `ChatService._extract_images_from_dom`: collect, in order, the bodies of
the qualifying DOM image candidates. -/
def extract_images_from_dom (cfg : ServiceConfig) : List DomImage → List Bytes
  | [] => []
  | im :: rest =>
      if domImageQualifies cfg im then im.data :: extract_images_from_dom cfg rest
      else extract_images_from_dom cfg rest

/-- An upload-completion signal as returned by
`ChatService.handle_upload_response_body` (a dict with `complete` and
`file_id`). -/
structure UploadSignal where
  complete : Bool
  file_id : String
deriving Repr, DecidableEq

/-- A completion signal as stored in `self.api_completion` (a dict with
`complete` and `text`). -/
structure Completion where
  complete : Bool
  text : String
deriving Repr, DecidableEq

/-- The record stored in `self.api_error`: the HTTP status and the error
message that `body.get("error", \x7b\x7d).get("message", ...)` extracts from the
stored body when the error is raised. -/
structure ApiErrorRec where
  status : Nat
  message : String
deriving Repr, DecidableEq

/-- The provider-specific hook methods of `ChatService` that
`_handle_response` calls, as function-valued parameters:
`_is_api_response`, the line scan over `handle_upload_response_body`
(returning the first signal with `complete` set, if any), the line scan over
`handle_api_response_body` (returning the last signal with `complete` set, if
any), and the message extracted from an error body. -/
structure ProviderHooks where
  isApiResponse : String → Bool
  uploadSignal : String → Option UploadSignal
  lastCompleteSignal : String → Option Completion
  errorMessage : Nat → String → String

/-- The per-turn mutable fields of `ChatService` that `_handle_response`
reads and writes. -/
structure HandlerState where
  listening : Bool
  responseCount : Nat
  capturedImages : List Bytes
  apiCompletion : Option Completion
  apiError : Option ApiErrorRec
  uploadComplete : Option UploadSignal
deriving Repr, DecidableEq

/-- One completed inbound response as seen by `_handle_response`: URL, HTTP
status, `content-type` header, decoded text body, and raw byte body. -/
structure NetResponse where
  url : String
  status : Nat
  contentType : String
  text : String
  body : Bytes
deriving Repr, DecidableEq

/-- The upload-tracking section of `ChatService._handle_response` (runs
regardless of `listening`): on a 2xx API response, store the upload signal
found by scanning the body lines with `handle_upload_response_body`. -/
def upload_track (hooks : ProviderHooks) (st : HandlerState)
    (r : NetResponse) : HandlerState :=
  if hooks.isApiResponse r.url = true ∧ 200 ≤ r.status ∧ r.status < 300 then
    match hooks.uploadSignal r.text with
    | some u => { st with uploadComplete := some u }
    | none => st
  else st

/-- The API-tracking section of `_handle_response` (only reached while
`listening`): count the matched response, store `api_error` on a 4xx/5xx
status, and on a 2xx status record a completion — the ChatGPT
`message_stream_complete` quick check (skipped when an image is expected)
possibly overridden by the last complete signal the line scan with
`handle_api_response_body` yields. -/
def api_track (hooks : ProviderHooks) (expectImage : Bool) (st : HandlerState)
    (r : NetResponse) : HandlerState :=
  if hooks.isApiResponse r.url = true then
    if 400 ≤ r.status then
      { st with responseCount := st.responseCount + 1,
                apiError := some ⟨r.status, hooks.errorMessage r.status r.text⟩ }
    else if 200 ≤ r.status ∧ r.status < 300 then
      match hooks.lastCompleteSignal r.text,
        (if strIn "message_stream_complete" r.text = true ∧ expectImage = false then
          { st with responseCount := st.responseCount + 1,
                    apiCompletion := some (⟨true, ""⟩ : Completion) }
        else { st with responseCount := st.responseCount + 1 }) with
      | some c, stS => { stS with apiCompletion := some c }
      | none, stS => stS
    else { st with responseCount := st.responseCount + 1 }
  else st

/-- The media-capture section of `_handle_response`: append the body only
when the content type contains `image`, the status is 200, the URL matches
the allowlist, and the body is strictly larger than `image_min_size`. -/
def capture_image (cfg : ServiceConfig) (st : HandlerState)
    (r : NetResponse) : HandlerState :=
  if strIn "image" r.contentType = true ∧ r.status = 200 ∧
      matches_image_pattern cfg r.url = true ∧ cfg.image_min_size < r.body.length then
    { st with capturedImages := st.capturedImages ++ [r.body] }
  else st

/-- `ChatService._handle_response`, section by section in source order:
upload tracking, the `listening` gate (`if not self.listening: return`),
API tracking (where an error status returns early, skipping image capture),
and media capture. -/
def handle_response (cfg : ServiceConfig) (hooks : ProviderHooks)
    (expectImage : Bool) (st : HandlerState) (r : NetResponse) : HandlerState :=
  if st.listening = false then upload_track hooks st r
  else
    let st2 := api_track hooks expectImage (upload_track hooks st r) r
    if hooks.isApiResponse r.url = true ∧ 400 ≤ r.status then st2
    else capture_image cfg st2 r

/-- Truthiness of an optional selector string (Python
`self.config.image_ready_selector`): present and non-empty. -/
def optStrTruthy : Option String → Bool
  | none => false
  | some s => !s.isEmpty

/-- `INACTIVITY_TIMEOUT = 50 if self._expect_image else 40` in
`ChatService._wait_for_response`. -/
def inactivityTimeoutBase (expectImage : Bool) : Nat :=
  if expectImage then 50 else 40

/-- `RETRY_AFTER_NO_RESPONSE = 10` in `ChatService._wait_for_response`. -/
def RETRY_AFTER_NO_RESPONSE : Nat := 10

/-- `max_retries = 2` for the re-send retry inside the wait loop. -/
def waitMaxRetries : Nat := 2

/-- `effective_timeout = INACTIVITY_TIMEOUT + (last_image_count * 10)`:
each captured image extends the inactivity window by 10 seconds. -/
def effectiveInactivityTimeout (expectImage : Bool) (imageCount : Nat) : Nat :=
  inactivityTimeoutBase expectImage + imageCount * 10

/-- The loop-local variables of `ChatService._wait_for_response`:
`wait_start`, `retry_count` and `last_image_count`. -/
structure WaitLoopState where
  waitStart : Nat
  retryCount : Nat
  lastImageCount : Nat
deriving Repr, DecidableEq

/-- The initial loop state: `wait_start = time.time()` at loop entry (taken
as instant 0), no retries, no images seen. -/
def initWaitState : WaitLoopState := ⟨0, 0, 0⟩

/-- Everything one iteration of the wait loop observes after its
`asyncio.sleep(0.5)`: the current time (`time.time()`, in seconds relative to
loop entry), `self.api_error`, presence of the hard-quota overlay text
(`"You've reached your current limit"`), `self.api_completion`,
`self.response_count`, visibility of `image_ready_selector`, and the current
`self.captured_images`. -/
structure WaitObs where
  time : Nat
  apiError : Option ApiErrorRec
  quotaVisible : Bool
  apiCompletion : Option Completion
  responseCount : Nat
  imageReady : Bool
  images : List Bytes
deriving Repr, DecidableEq

/-- How one iteration of the wait loop can terminate the loop. -/
inductive ExitKind where
  /-- `if self.api_error: break` (response text left empty). -/
  | apiErrorBreak
  /-- the hard-quota overlay raises `RateLimitException` out of the loop. -/
  | rateLimitRaise
  /-- `if self.api_completion:` break with the completion's text. -/
  | completionBreak (text : String)
  /-- `elapsed >= self.config.response_timeout` safety-net break. -/
  | hardTimeoutBreak
  /-- download-button visibility break, text `"Image generated"`. -/
  | imageReadyBreak
  /-- inactivity timeout with images while expecting one: degraded success,
  text `"Image generated"`. -/
  | inactivityImagesBreak
  /-- inactivity timeout with no usable images (response text left empty). -/
  | inactivityBreak
deriving Repr, DecidableEq

/-- Result of one iteration of the wait loop: keep looping with updated
loop-local variables, or leave the loop. -/
inductive StepResult where
  | continueLoop (st : WaitLoopState)
  | exitLoop (k : ExitKind)
deriving Repr, DecidableEq

/-- One iteration of the `while True` loop of
`ChatService._wait_for_response`, with the branches in source order:
api-error break, hard-quota raise, completion break, no-response re-send
retry (which resets `wait_start`), hard timeout, image-ready break, image
tracking (`last_image_count` update), inactivity timeout (extended by 10
seconds per captured image, degrading to success when images were captured
and expected), otherwise continue. -/
def wait_step (cfg : ServiceConfig) (expectImage : Bool)
    (st : WaitLoopState) (o : WaitObs) : StepResult :=
  if o.apiError.isSome = true then .exitLoop .apiErrorBreak
  else if o.quotaVisible = true then .exitLoop .rateLimitRaise
  else if o.apiCompletion.isSome = true then
    .exitLoop (.completionBreak ((o.apiCompletion.map Completion.text).getD ""))
  else if o.responseCount = 0 ∧ RETRY_AFTER_NO_RESPONSE ≤ o.time - st.waitStart ∧
      st.retryCount < waitMaxRetries then
    .continueLoop ⟨o.time, st.retryCount + 1, st.lastImageCount⟩
  else if cfg.response_timeout ≤ o.time - st.waitStart then .exitLoop .hardTimeoutBreak
  else if expectImage = true ∧ optStrTruthy cfg.image_ready_selector = true ∧
      o.imageReady = true then
    .exitLoop .imageReadyBreak
  else if effectiveInactivityTimeout expectImage
      (max st.lastImageCount o.images.length) ≤ o.time - st.waitStart then
    if expectImage = true ∧ o.images.isEmpty = false then
      .exitLoop .inactivityImagesBreak
    else .exitLoop .inactivityBreak
  else .continueLoop ⟨st.waitStart, st.retryCount, max st.lastImageCount o.images.length⟩

/-- Run the wait loop over a finite trace of iteration observations.
`none` means the trace ended with the loop still running; `some (k, o)` means
the iteration observing `o` left the loop with exit kind `k`. -/
def run_wait_loop (cfg : ServiceConfig) (expectImage : Bool) :
    WaitLoopState → List WaitObs → Option (ExitKind × WaitObs)
  | _, [] => none
  | st, o :: rest =>
    match wait_step cfg expectImage st o with
    | .continueLoop st' => run_wait_loop cfg expectImage st' rest
    | .exitLoop k => some (k, o)

/-- The exceptions `_wait_for_response` can raise after/while the loop runs:
`RateLimitException(service)`, `Exception("API error \x7bstatus\x7d: \x7bmsg\x7d")`, and
`Exception("No response text or images")`. -/
inductive WaitError where
  | rateLimited (service : String)
  | apiErrorRaise (status : Nat) (message : String)
  | noResponse
deriving Repr, DecidableEq

/-- The post-loop half of `ChatService._wait_for_response`: derive the
response text the loop fixed (completion text, `"Image generated"` for the
image-ready and degraded-success breaks, empty otherwise), then — when the
text is empty — raise a stored API error, fall back to DOM text extraction
(`domText` is what `extract_response_text` returns), use the
`"Image generated"` placeholder when images were captured and expected, or
raise `No response text or images`; finally run the DOM image fallback when
images were expected but none captured. -/
def wait_outcome (cfg : ServiceConfig) (expectImage : Bool) (domText : String)
    (domImages : List DomImage) :
    ExitKind × WaitObs → Except WaitError (String × List Bytes)
  | (.rateLimitRaise, _) => .error (.rateLimited cfg.service_name)
  | (k, o) =>
    let text0 : String :=
      match k with
      | .completionBreak t => t
      | .imageReadyBreak => "Image generated"
      | .inactivityImagesBreak => "Image generated"
      | _ => ""
    let textR : Except WaitError String :=
      if text0 = "" then
        match o.apiError with
        | some e => .error (.apiErrorRaise e.status e.message)
        | none =>
          if domText = "" then
            if o.images.isEmpty = false ∧ expectImage = true then .ok "Image generated"
            else .error .noResponse
          else .ok domText
      else .ok text0
    match textR with
    | .error err => .error err
    | .ok t =>
      let finalImages :=
        if expectImage = true ∧ o.images.isEmpty = true then
          extract_images_from_dom cfg domImages
        else o.images
      .ok (t, finalImages)

/-- `ChatService._wait_for_response` over a finite observation trace:
run the loop from the initial state, then apply the post-loop processing.
`none` when the trace did not decide the loop. -/
def wait_for_response (cfg : ServiceConfig) (expectImage : Bool)
    (trace : List WaitObs) (domText : String) (domImages : List DomImage) :
    Option (Except WaitError (String × List Bytes)) :=
  (run_wait_loop cfg expectImage initWaitState trace).map
    (wait_outcome cfg expectImage domText domImages)

/-- What one attempt of `ChatService._chat_impl` does, as observed by the
retry wrapper `ChatService.chat`: return a `(text, image)` pair, be
cancelled (`asyncio.CancelledError` / `KeyboardInterrupt`), or raise an
exception whose `str` is `msg`. -/
inductive AttemptOutcome where
  | success (text : String) (image : Option Bytes)
  | cancelled
  | failure (msg : String)

/-- How `ChatService.chat` itself terminates abnormally. -/
inductive ChatError where
  | cancelled
  | failed (msg : String)
deriving Repr, DecidableEq

/-- The observable outcome of `ChatService.chat`: its result and how many
attempts (calls of `_chat_impl`) were made. -/
structure ChatRun where
  result : Except ChatError (String × Option Bytes)
  attempts : Nat

/-- Python truthiness of `result[0] or result[1]` for a
`tuple[str, bytes | None]`: non-empty text, or a present non-empty image. -/
def truthyResult (text : String) (image : Option Bytes) : Bool :=
  !text.isEmpty ||
    (match image with
     | some b => !b.isEmpty
     | none => false)

/-- `max_retries = 3` in `ChatService.chat`. -/
def chatMaxRetries : Nat := 3

/-- The body of the `for attempt in range(1, max_retries + 1)` loop of
`ChatService.chat`: a truthy result returns at once; an empty result retries
while attempts remain (and is returned as `last_result` on the final
attempt); cancellation re-raises; an exception retries only when its message
contains `"API error 429"` and attempts remain, and otherwise re-raises.
`fuel` counts the remaining loop iterations (`chatMaxRetries + 1 - attempt`);
the fuel-exhausted case is Python's fall-through `return last_result`. -/
def chat_go (outcomes : Nat → AttemptOutcome) :
    Nat → Nat → String × Option Bytes → ChatRun
  | 0, attempt, last => ⟨.ok last, attempt - 1⟩
  | fuel + 1, attempt, last =>
    match outcomes attempt with
    | .success t img =>
      if truthyResult t img = true then ⟨.ok (t, img), attempt⟩
      else if attempt < chatMaxRetries then chat_go outcomes fuel (attempt + 1) (t, img)
      else ⟨.ok (t, img), attempt⟩
    | .cancelled => ⟨.error .cancelled, attempt⟩
    | .failure msg =>
      if strIn "API error 429" msg = true ∧ attempt < chatMaxRetries then
        chat_go outcomes fuel (attempt + 1) last
      else ⟨.error (.failed msg), attempt⟩

/-- `ChatService.chat`: run up to `max_retries = 3` attempts of
`_chat_impl`, starting from `last_result = ("", None)`. `outcomes n` is what
attempt number `n` of `_chat_impl` would do. -/
def chat (outcomes : Nat → AttemptOutcome) : ChatRun :=
  chat_go outcomes chatMaxRetries 1 ("", none)

/-- `str(RateLimitException(service))` from `core/exceptions.py`: the
message plus the `| Details:` suffix that `SpecterException.__str__` appends
when details are present. -/
def rateLimitStr (service : String) : String :=
  "Rate limit reached for " ++ service ++ " | Details: \x7b'service': '" ++
    service ++ "', 'retry_after': None\x7d"

/-- The side effects of one `_chat_impl` invocation that the cleanup claims
track: service-lock acquisition/release (`lock.acquire()` /
`lock.release()`), the browser-close routine (`close_browser` via
`_cleanup`), and the diagnostic dump (`handle_browser_error`). -/
inductive TurnEvent where
  | lockAcquire
  | lockRelease
  | browserClose
  | diagnosticDump
deriving Repr, BEq, DecidableEq

/-- A Python exception as it propagates out of `_chat_impl`: cancellation or
an ordinary exception. -/
inductive PyExc where
  | cancelled
  | failure (msg : String)
deriving Repr, DecidableEq

/-- A computation that emits a list of `TurnEvent`s and then either returns
a value or raises. -/
def Comp (α : Type) := List TurnEvent × Except PyExc α

/-- Emit a single event. -/
def emit (e : TurnEvent) : Comp Unit := ([e], .ok ())

/-- Sequencing of event-emitting computations: a raised exception skips the
continuation (Python control flow). -/
def compBind {α β : Type} (x : Comp α) (f : α → Comp β) : Comp β :=
  match x with
  | (evs, .error e) => (evs, .error e)
  | (evs, .ok a) =>
    let (evs2, r) := f a
    (evs ++ evs2, r)

/-- Python `try:`/`finally:`: the finalizer always runs; an exception raised
by the finalizer replaces the body's outcome, otherwise the body's outcome
stands. -/
def tryFinallyC {α : Type} (body : Comp α) (fin : Comp Unit) : Comp α :=
  let (evs1, r) := body
  let (evs2, rf) := fin
  (evs1 ++ evs2,
    match rf with
    | .error e => .error e
    | .ok _ => r)

/-- Python `try:`/`except:`: a normal return passes through, a raised
exception is given to the handler. -/
def tryExceptC {α : Type} (body : Comp α) (handler : PyExc → Comp α) : Comp α :=
  match body with
  | (evs, .ok a) => (evs, .ok a)
  | (evs, .error e) =>
    let (evs2, r) := handler e
    (evs ++ evs2, r)

/-- The terminal behaviour of the `try:` body of `_chat_impl` (the launch /
login / send / wait pipeline): return a result, be cancelled, or raise. -/
inductive BodyOutcome where
  | ok (text : String) (image : Option Bytes)
  | cancelled
  | err (msg : String)

/-- The body pipeline of `_chat_impl` as a computation with the given
terminal behaviour. -/
def bodyComp : BodyOutcome → Comp (String × Option Bytes)
  | .ok t i => ([], .ok (t, i))
  | .cancelled => ([], .error .cancelled)
  | .err m => ([], .error (.failure m))

/-- The two `except` clauses of `_chat_impl`: cancellation logs and
re-raises; any other exception runs the best-effort diagnostic dump
(`handle_browser_error`, which swallows its own failures — every statement
in it is guarded) and re-raises. -/
def chatImplHandler : PyExc → Comp (String × Option Bytes)
  | .cancelled => ([], .error .cancelled)
  | .failure m => ([TurnEvent.diagnosticDump], .error (.failure m))

/-- `ChatService._cleanup`, i.e. `close_browser`: every await inside
`close_browser` (tracing stop, `storage_state`, `context.close`,
`browser.close`, `playwright.stop`) is wrapped in its own `try`/`except`, so
the routine runs to completion and never raises. -/
def cleanupComp : Comp Unit := ([TurnEvent.browserClose], .ok ())

/-- `ChatService._chat_impl`'s resource skeleton: acquire the per-service
lock, run the body under `try`/`except`/`finally` where the `finally` block
runs `_cleanup()` and then `lock.release()`. -/
def chat_impl (b : BodyOutcome) : Comp (String × Option Bytes) :=
  compBind (emit .lockAcquire) (fun _ =>
    tryFinallyC
      (tryExceptC (bodyComp b) chatImplHandler)
      (compBind cleanupComp (fun _ => emit .lockRelease)))

/-- The terminal outcome `_chat_impl` propagates for each body behaviour. -/
def terminalOf : BodyOutcome → Except PyExc (String × Option Bytes)
  | .ok t i => .ok (t, i)
  | .cancelled => .error .cancelled
  | .err m => .error (.failure m)

/-- What the route interceptor installed by `ChatService._setup_interceptors`
does with one outbound request: continue it unchanged, or continue it with a
replaced body. -/
inductive RouteAction where
  | continueOriginal
  | continueModified (body : String)
deriving Repr, DecidableEq

/-- The `intercept` closure of `ChatService._setup_interceptors`, generic in
the JSON representation `J`: with truthy post data that parses as JSON, call
`modify_request_body` (`modify`, which may raise); only when it returns
`True` is the request continued with the re-serialized body, and on missing
post data, a parse failure, a `False` return, or a raised exception the
request is continued with its original body. Exactly one `route.continue_`
call is made on every path. -/
def intercept {J : Type} (parse : String → Option J) (dumps : J → String)
    (modify : J → Except Unit (Bool × J)) (postData : Option String) : RouteAction :=
  match postData with
  | none => .continueOriginal
  | some s =>
    if s = "" then .continueOriginal
    else
      match parse s with
      | none => .continueOriginal
      | some b =>
        match modify b with
        | .error _ => .continueOriginal
        | .ok (modified, b2) =>
          if modified = true then .continueModified (dumps b2)
          else .continueOriginal

/-! ## Helper lemmas -/

theorem upload_track_capturedImages (hooks : ProviderHooks) (st : HandlerState)
    (r : NetResponse) : (upload_track hooks st r).capturedImages = st.capturedImages := by
  unfold upload_track
  repeat' split
  all_goals rfl

theorem upload_track_responseCount (hooks : ProviderHooks) (st : HandlerState)
    (r : NetResponse) : (upload_track hooks st r).responseCount = st.responseCount := by
  unfold upload_track
  repeat' split
  all_goals rfl

theorem api_track_capturedImages (hooks : ProviderHooks) (expectImage : Bool)
    (st : HandlerState) (r : NetResponse) :
    (api_track hooks expectImage st r).capturedImages = st.capturedImages := by
  unfold api_track
  repeat' split
  all_goals rfl

theorem capture_image_small (cfg : ServiceConfig) (st : HandlerState)
    (r : NetResponse) (h : r.body.length ≤ cfg.image_min_size) :
    (capture_image cfg st r).capturedImages = st.capturedImages := by
  unfold capture_image
  split
  · rename_i hc
    exact absurd hc.2.2.2 (by omega)
  · rfl

theorem wait_step_apiError_none (cfg : ServiceConfig) (ex : Bool)
    (st : WaitLoopState) (o : WaitObs) (k : ExitKind)
    (h : wait_step cfg ex st o = StepResult.exitLoop k)
    (hk : k ≠ ExitKind.apiErrorBreak) : o.apiError = none := by
  cases ho : o.apiError with
  | none => rfl
  | some e =>
    unfold wait_step at h
    simp [ho] at h
    exact absurd h.symm hk

theorem run_wait_loop_exit (cfg : ServiceConfig) (ex : Bool) :
    ∀ (trace : List WaitObs) (st : WaitLoopState) (k : ExitKind) (o : WaitObs),
      run_wait_loop cfg ex st trace = some (k, o) →
      ∃ st', wait_step cfg ex st' o = StepResult.exitLoop k := by
  intro trace
  induction trace with
  | nil => intro st k o h; simp [run_wait_loop] at h
  | cons hd tl ih =>
    intro st k o h
    unfold run_wait_loop at h
    cases hws : wait_step cfg ex st hd with
    | continueLoop st2 =>
      rw [hws] at h
      exact ih st2 k o h
    | exitLoop k2 =>
      rw [hws] at h
      simp at h
      obtain ⟨hk, ho⟩ := h
      subst hk
      subst ho
      exact ⟨st, hws⟩

/-! ## Claim theorems -/

/-- C1: for every terminal behaviour of the body of
`ChatService._chat_impl` — return, exception, or cancellation — the
per-service lock is acquired and released exactly once (acquire count equals
release count), the browser-close routine (`close_browser` via `_cleanup`)
runs exactly once, and the body's terminal outcome is propagated. -/
theorem claim1_lock_cleanup (b : BodyOutcome) :
    ((chat_impl b).1.count TurnEvent.lockAcquire = 1 ∧
      (chat_impl b).1.count TurnEvent.lockRelease = 1 ∧
      (chat_impl b).1.count TurnEvent.browserClose = 1) ∧
    (chat_impl b).2 = terminalOf b := by
  cases b <;> exact ⟨⟨rfl, rfl, rfl⟩, rfl⟩

/-- Witness for C1 at a concrete successful body. -/
theorem claim1_lock_cleanup_witness :
    ((chat_impl (BodyOutcome.ok "hi" none)).1.count TurnEvent.lockAcquire = 1 ∧
      (chat_impl (BodyOutcome.ok "hi" none)).1.count TurnEvent.lockRelease = 1 ∧
      (chat_impl (BodyOutcome.ok "hi" none)).1.count TurnEvent.browserClose = 1) ∧
    (chat_impl (BodyOutcome.ok "hi" none)).2 = terminalOf (BodyOutcome.ok "hi" none) :=
  claim1_lock_cleanup (BodyOutcome.ok "hi" none)

/-- C2: while `listening` is false, `_handle_response` neither appends to
`captured_images` nor increments `response_count` (only upload tracking may
run before the prompt is dispatched). -/
theorem claim2_listening_gate (cfg : ServiceConfig) (hooks : ProviderHooks)
    (expectImage : Bool) (st : HandlerState) (r : NetResponse)
    (h : st.listening = false) :
    (handle_response cfg hooks expectImage st r).capturedImages = st.capturedImages ∧
    (handle_response cfg hooks expectImage st r).responseCount = st.responseCount := by
  have hgate : handle_response cfg hooks expectImage st r = upload_track hooks st r := by
    unfold handle_response
    rw [h]
    simp
  rw [hgate]
  exact ⟨upload_track_capturedImages hooks st r, upload_track_responseCount hooks st r⟩

/-- Witness for C2: a pre-prompt response leaves media and the activity
count untouched. -/
theorem claim2_listening_gate_witness :
    (handle_response ⟨"grok", [], 50000, 90, none⟩
        ⟨fun _ => true, fun _ => none, fun _ => none, fun _ _ => ""⟩ true
        ⟨false, 0, [], none, none, none⟩
        ⟨"https://example/api", 200, "image/png", "", [1, 2, 3]⟩).capturedImages = [] ∧
    (handle_response ⟨"grok", [], 50000, 90, none⟩
        ⟨fun _ => true, fun _ => none, fun _ => none, fun _ _ => ""⟩ true
        ⟨false, 0, [], none, none, none⟩
        ⟨"https://example/api", 200, "image/png", "", [1, 2, 3]⟩).responseCount = 0 :=
  claim2_listening_gate ⟨"grok", [], 50000, 90, none⟩
    ⟨fun _ => true, fun _ => none, fun _ => none, fun _ _ => ""⟩ true
    ⟨false, 0, [], none, none, none⟩
    ⟨"https://example/api", 200, "image/png", "", [1, 2, 3]⟩ rfl

/-- C3: `_select_best_image` returns `None` on the empty list and the last
element of any non-empty captured list, whatever its source. -/
theorem claim3_select_best_image :
    select_best_image [] = none ∧
    ∀ (l : List Bytes) (b : Bytes), select_best_image (l ++ [b]) = some b := by
  constructor
  · rfl
  · intro l b
    simp [select_best_image]

/-- Witness for C3: `[b1, b2, b3]` yields `b3`. -/
theorem claim3_select_best_image_witness :
    select_best_image ([[1], [2]] ++ [[3]]) = some [3] ∧ select_best_image [] = none :=
  ⟨claim3_select_best_image.2 [[1], [2]] [3], claim3_select_best_image.1⟩

/-- C4: a payload whose byte length does not exceed `image_min_size` is
never appended to captured media, neither by the network-capture path of
`_handle_response` nor by the DOM fallback `_extract_images_from_dom` (every
element the fallback returns is strictly larger than the threshold). -/
theorem claim4_min_size_filter :
    (∀ (cfg : ServiceConfig) (hooks : ProviderHooks) (expectImage : Bool)
        (st : HandlerState) (r : NetResponse),
        r.body.length ≤ cfg.image_min_size →
        (handle_response cfg hooks expectImage st r).capturedImages = st.capturedImages) ∧
    (∀ (cfg : ServiceConfig) (dis : List DomImage),
        ∀ b ∈ extract_images_from_dom cfg dis, cfg.image_min_size < b.length) := by
  constructor
  · intro cfg hooks expectImage st r h
    unfold handle_response
    by_cases hl : st.listening = false
    · rw [hl]
      simpa using upload_track_capturedImages hooks st r
    · rw [if_neg (by simpa using hl)]
      split
      · rw [api_track_capturedImages, upload_track_capturedImages]
      · rw [capture_image_small _ _ _ h, api_track_capturedImages,
          upload_track_capturedImages]
  · intro cfg dis
    induction dis with
    | nil => intro b hb; simp [extract_images_from_dom] at hb
    | cons im rest ih =>
      intro b hb
      unfold extract_images_from_dom at hb
      by_cases hq : domImageQualifies cfg im = true
      · rw [if_pos hq] at hb
        rw [List.mem_cons] at hb
        rcases hb with hb | hb
        · subst hb
          unfold domImageQualifies at hq
          cases him : im.src with
          | none => rw [him] at hq; simp at hq
          | some s =>
            rw [him] at hq
            simp only [Bool.and_eq_true, decide_eq_true_eq] at hq
            exact hq.2
        · exact ih b hb
      · rw [if_neg (by simpa using hq)] at hb
        exact ih b hb

/-- Witness for C4: a payload below the 80000-byte threshold (standing in
for the spec's 50000-byte example) is rejected, on both paths. -/
theorem claim4_min_size_filter_witness :
    (handle_response ⟨"grok", ["img"], 80000, 90, none⟩
        ⟨fun _ => false, fun _ => none, fun _ => none, fun _ _ => ""⟩ true
        ⟨true, 0, [], none, none, none⟩
        ⟨"https://img", 200, "image/png", "", [7, 7, 7]⟩).capturedImages = [] ∧
    (([7, 7, 7] : Bytes).length ≤ 80000 ∧
      ∀ b ∈ extract_images_from_dom ⟨"grok", ["img"], 80000, 90, none⟩
          [⟨some "https://img", true, [7, 7, 7]⟩], (80000 : Nat) < b.length) :=
  ⟨claim4_min_size_filter.1 ⟨"grok", ["img"], 80000, 90, none⟩
      ⟨fun _ => false, fun _ => none, fun _ => none, fun _ _ => ""⟩ true
      ⟨true, 0, [], none, none, none⟩
      ⟨"https://img", 200, "image/png", "", [7, 7, 7]⟩ (by simp),
    ⟨by simp, claim4_min_size_filter.2 ⟨"grok", ["img"], 80000, 90, none⟩
      [⟨some "https://img", true, [7, 7, 7]⟩]⟩⟩

/-- C10: the interceptor installed by `_setup_interceptors` continues every
request exactly once (the function yields exactly one `RouteAction`), with
the original body when there is no post data, when the post data does not
parse as JSON, when `modify_request_body` returns `False`, or when mutation
raises; only a `True` return continues with the re-serialized modified
body. -/
theorem claim10_intercept_cases :
    (∀ (J : Type) (parse : String → Option J) (dumps : J → String)
        (modify : J → Except Unit (Bool × J)),
        intercept parse dumps modify none = RouteAction.continueOriginal) ∧
    (∀ (J : Type) (parse : String → Option J) (dumps : J → String)
        (modify : J → Except Unit (Bool × J)) (s : String),
        parse s = none →
        intercept parse dumps modify (some s) = RouteAction.continueOriginal) ∧
    (∀ (J : Type) (parse : String → Option J) (dumps : J → String)
        (modify : J → Except Unit (Bool × J)) (s : String) (b : J),
        parse s = some b → modify b = .error () →
        intercept parse dumps modify (some s) = RouteAction.continueOriginal) ∧
    (∀ (J : Type) (parse : String → Option J) (dumps : J → String)
        (modify : J → Except Unit (Bool × J)) (s : String) (b b2 : J),
        parse s = some b → modify b = .ok (false, b2) →
        intercept parse dumps modify (some s) = RouteAction.continueOriginal) ∧
    (∀ (J : Type) (parse : String → Option J) (dumps : J → String)
        (modify : J → Except Unit (Bool × J)) (s : String) (b b2 : J),
        s ≠ "" → parse s = some b → modify b = .ok (true, b2) →
        intercept parse dumps modify (some s) = RouteAction.continueModified (dumps b2)) ∧
    (∀ (J : Type) (parse : String → Option J) (dumps : J → String)
        (modify : J → Except Unit (Bool × J)) (pd : Option String),
        intercept parse dumps modify pd = RouteAction.continueOriginal ∨
        ∃ out, intercept parse dumps modify pd = RouteAction.continueModified out) := by
  refine ⟨?_, ?_, ?_, ?_, ?_, ?_⟩
  · intro J parse dumps modify
    rfl
  · intro J parse dumps modify s hp
    by_cases hs : s = "" <;> simp [intercept, hs, hp]
  · intro J parse dumps modify s b hp hm
    by_cases hs : s = "" <;> simp [intercept, hs, hp, hm]
  · intro J parse dumps modify s b b2 hp hm
    by_cases hs : s = "" <;> simp [intercept, hs, hp, hm]
  · intro J parse dumps modify s b b2 hs hp hm
    simp [intercept, hs, hp, hm]
  · intro J parse dumps modify pd
    cases h : intercept parse dumps modify pd with
    | continueOriginal => exact Or.inl rfl
    | continueModified out => exact Or.inr ⟨out, rfl⟩

/-- Sample JSON parser for the C10 witness: only the string `"g"` parses. -/
def interceptParseW : String → Option Nat := fun s => if s = "g" then some 5 else none

/-- Sample serializer for the C10 witness. -/
def interceptDumpsW : Nat → String := fun n => toString n

/-- Sample mutators for the C10 witness: modify, decline, raise. -/
def interceptModTrueW : Nat → Except Unit (Bool × Nat) := fun n => .ok (true, n + 1)

/-- Sample mutator that declines to modify. -/
def interceptModFalseW : Nat → Except Unit (Bool × Nat) := fun n => .ok (false, n)

/-- Sample mutator that raises. -/
def interceptModRaiseW : Nat → Except Unit (Bool × Nat) := fun _ => .error ()

/-- Witness for C10 on concrete requests: each pass-through case and the
modified case, evaluated. -/
theorem claim10_intercept_cases_witness :
    intercept interceptParseW interceptDumpsW interceptModTrueW none =
      RouteAction.continueOriginal ∧
    intercept interceptParseW interceptDumpsW interceptModTrueW (some "x") =
      RouteAction.continueOriginal ∧
    intercept interceptParseW interceptDumpsW interceptModRaiseW (some "g") =
      RouteAction.continueOriginal ∧
    intercept interceptParseW interceptDumpsW interceptModFalseW (some "g") =
      RouteAction.continueOriginal ∧
    intercept interceptParseW interceptDumpsW interceptModTrueW (some "g") =
      RouteAction.continueModified (interceptDumpsW 6) :=
  ⟨claim10_intercept_cases.1 Nat interceptParseW interceptDumpsW interceptModTrueW,
    claim10_intercept_cases.2.1 Nat interceptParseW interceptDumpsW interceptModTrueW "x"
      (by simp [interceptParseW]),
    claim10_intercept_cases.2.2.1 Nat interceptParseW interceptDumpsW interceptModRaiseW "g" 5
      (by simp [interceptParseW]) rfl,
    claim10_intercept_cases.2.2.2.1 Nat interceptParseW interceptDumpsW interceptModFalseW "g" 5 5
      (by simp [interceptParseW]) rfl,
    claim10_intercept_cases.2.2.2.2.1 Nat interceptParseW interceptDumpsW interceptModTrueW "g" 5 6
      (by simp) (by simp [interceptParseW]) rfl⟩

/-- C5: when the wait loop leaves by a timeout (the hard safety-net timeout
or the inactivity timeout) while images were captured and expected, the turn
completes as a degraded success: `_wait_for_response` returns the captured
media with some text rather than raising, and returns exactly the
`"Image generated"` placeholder whenever DOM extraction yields no text (the
inactivity-with-images break sets the placeholder directly). -/
theorem claim5_degraded_success (cfg : ServiceConfig) (trace : List WaitObs)
    (domText : String) (domImages : List DomImage) (k : ExitKind) (o : WaitObs)
    (hrun : run_wait_loop cfg true initWaitState trace = some (k, o))
    (hk : k = ExitKind.hardTimeoutBreak ∨ k = ExitKind.inactivityImagesBreak)
    (himg : o.images ≠ []) :
    (∃ t, wait_for_response cfg true trace domText domImages =
        some (Except.ok (t, o.images))) ∧
    (domText = "" → wait_for_response cfg true trace domText domImages =
        some (Except.ok ("Image generated", o.images))) := by
  have hisEmpty : o.images.isEmpty = false := by
    cases hi : o.images with
    | nil => exact absurd hi himg
    | cons a l => rfl
  have hapi : o.apiError = none := by
    obtain ⟨st', hws⟩ := run_wait_loop_exit cfg true trace initWaitState k o hrun
    refine wait_step_apiError_none cfg true st' o k hws ?_
    rcases hk with hk | hk <;> (subst hk; simp)
  unfold wait_for_response
  rw [hrun]
  rcases hk with hk | hk
  · subst hk
    constructor
    · by_cases hdt : domText = ""
      · exact ⟨"Image generated", by simp [wait_outcome, hapi, hdt, hisEmpty]⟩
      · exact ⟨domText, by simp [wait_outcome, hapi, hdt, hisEmpty]⟩
    · intro hdt
      simp [wait_outcome, hapi, hdt, hisEmpty]
  · subst hk
    constructor
    · exact ⟨"Image generated", by simp [wait_outcome, hisEmpty]⟩
    · intro hdt
      simp [wait_outcome, hisEmpty]

/-- Config for the C5 witness: default thresholds, 90 s hard timeout. -/
def cfgC5 : ServiceConfig := ⟨"grok", [], 50000, 90, none⟩

/-- Observation for the C5 witness: a poll at t = 95 s with one captured
image and one counted API response, and no completion signal. -/
def obsC5 : WaitObs := ⟨95, none, false, none, 1, false, [[1, 2, 3]]⟩

/-- Witness for C5: the hard timeout fires at t = 95 with one captured
image, and the wait returns the placeholder text and that image. -/
theorem claim5_degraded_success_witness :
    run_wait_loop cfgC5 true initWaitState [obsC5] =
      some (ExitKind.hardTimeoutBreak, obsC5) ∧
    wait_for_response cfgC5 true [obsC5] "" [] =
      some (Except.ok ("Image generated", [[1, 2, 3]])) :=
  ⟨rfl,
    (claim5_degraded_success cfgC5 [obsC5] "" [] ExitKind.hardTimeoutBreak obsC5 rfl
      (Or.inl rfl) (by decide)).2 rfl⟩

/-- A transient browser/navigation error message, as Playwright raises it. -/
def browserTimeoutMsg : String := "Page.goto: Timeout 120000ms exceeded"

/-- The attempt behaviour claimed by C6: transient browser errors on
attempts 1 and 2, success on attempt 3. -/
def claim6Outcomes : Nat → AttemptOutcome := fun n =>
  if n = 1 then AttemptOutcome.failure browserTimeoutMsg
  else if n = 2 then AttemptOutcome.failure browserTimeoutMsg
  else AttemptOutcome.success "ok" (some [1])

/-- Counterexample to C6 as stated: with a transient browser error on
attempts 1 and 2 and success on attempt 3, `chat` does not return the
successful result after 3 attempts — the error message does not contain
`"API error 429"`, so the wrapper re-raises it after exactly one attempt. -/
theorem claim6_counterexample :
    strIn "API error 429" browserTimeoutMsg = false ∧
    chat claim6Outcomes =
      ⟨Except.error (ChatError.failed browserTimeoutMsg), 1⟩ ∧
    ¬((chat claim6Outcomes).result = Except.ok ("ok", some [1]) ∧
      (chat claim6Outcomes).attempts = 3) :=
  ⟨by decide, rfl, fun h => absurd h.2 (by decide)⟩

/-- C6 as amended: the retry wrapper retries a whole-turn failure only when
its message carries the rate-limited classification `"API error 429"` (or
when the attempt returned an empty result); with such failures on attempts
1 and 2 and a truthy success on attempt 3, and retry bound 3, `chat`
returns the successful result after exactly 3 attempts. -/
theorem claim6_amended (m1 m2 t : String) (img : Option Bytes)
    (h1 : strIn "API error 429" m1 = true) (h2 : strIn "API error 429" m2 = true)
    (h3 : truthyResult t img = true) :
    chat (fun n => if n = 1 then AttemptOutcome.failure m1
      else if n = 2 then AttemptOutcome.failure m2
      else AttemptOutcome.success t img) = ⟨Except.ok (t, img), 3⟩ := by
  simp [chat, chat_go, chatMaxRetries, h1, h2, h3]

/-- Witness for the amended C6 on concrete 429-classified failures. -/
theorem claim6_amended_witness :
    chat (fun n => if n = 1 then AttemptOutcome.failure "API error 429: a"
      else if n = 2 then AttemptOutcome.failure "API error 429: b"
      else AttemptOutcome.success "done" none) = ⟨Except.ok ("done", none), 3⟩ :=
  claim6_amended "API error 429: a" "API error 429: b" "done" none
    (by decide) (by decide) (by decide)

/-- C7: error classification is asymmetric. A failed attempt whose message
contains `"API error 429"` is retried while attempts remain (here: retried
once and the second attempt's success is returned after exactly 2
attempts); the hard-quota page indicator makes the wait loop raise
`RateLimitException` at once (before any completion handling), the
post-loop processing surfaces it as the rate-limited error, and the
wrapper — whose only retryable message class is `"API error 429"` — makes
exactly one attempt on it. -/
theorem claim7_asymmetric_classification :
    (∀ (msg t : String) (img : Option Bytes),
        strIn "API error 429" msg = true → truthyResult t img = true →
        chat (fun n => if n = 1 then AttemptOutcome.failure msg
          else AttemptOutcome.success t img) = ⟨Except.ok (t, img), 2⟩) ∧
    (∀ (cfg : ServiceConfig) (ex : Bool) (st : WaitLoopState) (o : WaitObs),
        o.apiError = none → o.quotaVisible = true →
        wait_step cfg ex st o = StepResult.exitLoop ExitKind.rateLimitRaise) ∧
    (∀ (cfg : ServiceConfig) (ex : Bool) (domText : String)
        (domImages : List DomImage) (o : WaitObs),
        wait_outcome cfg ex domText domImages (ExitKind.rateLimitRaise, o) =
          Except.error (WaitError.rateLimited cfg.service_name)) ∧
    (∀ (outcomes : Nat → AttemptOutcome) (msg : String),
        outcomes 1 = AttemptOutcome.failure msg →
        strIn "API error 429" msg = false →
        chat outcomes = ⟨Except.error (ChatError.failed msg), 1⟩) := by
  refine ⟨?_, ?_, ?_, ?_⟩
  · intro msg t img h1 h2
    simp [chat, chat_go, chatMaxRetries, h1, h2]
  · intro cfg ex st o h1 h2
    unfold wait_step
    simp [h1, h2]
  · intro cfg ex domText domImages o
    rfl
  · intro outcomes msg h1 h2
    simp [chat, chat_go, chatMaxRetries, h1, h2]

/-- Config for the C7 witness. -/
def cfgC7 : ServiceConfig := ⟨"chatgpt", [], 50000, 90, none⟩

/-- Observation for the C7 witness: the hard-quota overlay is visible (and
even a pending completion does not pre-empt the raise). -/
def obsC7 : WaitObs := ⟨1, none, true, some ⟨true, "done"⟩, 0, false, []⟩

/-- Witness for C7: a 429-classified failure is retried and the second
attempt returned; the quota overlay raises after exactly one attempt. -/
theorem claim7_asymmetric_classification_witness :
    chat (fun n => if n = 1 then AttemptOutcome.failure "API error 429: heavy load"
      else AttemptOutcome.success "ok" none) = ⟨Except.ok ("ok", none), 2⟩ ∧
    wait_step cfgC7 false initWaitState obsC7 =
      StepResult.exitLoop ExitKind.rateLimitRaise ∧
    wait_outcome cfgC7 false "" [] (ExitKind.rateLimitRaise, obsC7) =
      Except.error (WaitError.rateLimited "chatgpt") ∧
    chat (fun _ => AttemptOutcome.failure (rateLimitStr "chatgpt")) =
      ⟨Except.error (ChatError.failed (rateLimitStr "chatgpt")), 1⟩ :=
  ⟨claim7_asymmetric_classification.1 "API error 429: heavy load" "ok" none
      (by decide) (by decide),
    claim7_asymmetric_classification.2.1 cfgC7 false initWaitState obsC7 rfl rfl,
    claim7_asymmetric_classification.2.2.1 cfgC7 false "" [] obsC7,
    claim7_asymmetric_classification.2.2.2 (fun _ => AttemptOutcome.failure (rateLimitStr "chatgpt"))
      (rateLimitStr "chatgpt") rfl (by decide)⟩

/-- Config for the C8 counterexample (default 90 s hard timeout, text-only
turn so the base inactivity window is 40 s). -/
def cfgC8 : ServiceConfig := ⟨"chatgpt", [], 50000, 90, none⟩

/-- C8 counterexample, iteration 1: by t = 5 a matched API response has
been observed (`response_count = 1`) — activity within the inactivity
window. -/
def obsC8a : WaitObs := ⟨5, none, false, none, 1, false, []⟩

/-- C8 counterexample, iteration 2: the poll at t = 41, before the deadline
a restarted measurement would give (5 + 40 = 45). -/
def obsC8b : WaitObs := ⟨41, none, false, none, 1, false, []⟩

/-- Counterexample to C8 as stated: activity (a matched API response) is
observed at t = 5, inside the 40 s inactivity window, yet the loop still
takes the inactivity-timeout branch at t = 41 — before the restarted
deadline t = 45 that the claim requires — because the elapsed-time
measurement is never restarted by API responses. -/
theorem claim8_counterexample :
    obsC8a.responseCount = 1 ∧
    obsC8b.time < obsC8a.time + inactivityTimeoutBase false ∧
    run_wait_loop cfgC8 false initWaitState [obsC8a, obsC8b] =
      some (ExitKind.inactivityBreak, obsC8b) :=
  ⟨rfl, by decide, rfl⟩

/-- C8 as amended: the inactivity elapsed-time measurement does not restart
on a matched API response, a DOM signal, or a media capture; within the
wait loop the only transition that resets it is the re-send retry taken
when no API response has arrived after 10 s and fewer than 2 retries were
used. (Media captures instead extend the window, and completion/DOM-ready
signals exit the loop.) -/
theorem claim8_amended (cfg : ServiceConfig) (ex : Bool) (st : WaitLoopState)
    (o : WaitObs) (st' : WaitLoopState)
    (h : wait_step cfg ex st o = StepResult.continueLoop st') :
    st'.waitStart = st.waitStart ∨
      (st'.waitStart = o.time ∧ o.responseCount = 0 ∧
        RETRY_AFTER_NO_RESPONSE ≤ o.time - st.waitStart ∧
        st.retryCount < waitMaxRetries ∧ st'.retryCount = st.retryCount + 1) := by
  unfold wait_step at h
  by_cases ha : o.apiError.isSome = true
  · rw [if_pos ha] at h; simp at h
  · rw [if_neg ha] at h
    by_cases hq : o.quotaVisible = true
    · rw [if_pos hq] at h; simp at h
    · rw [if_neg hq] at h
      by_cases hc : o.apiCompletion.isSome = true
      · rw [if_pos hc] at h; simp at h
      · rw [if_neg hc] at h
        by_cases hr : (o.responseCount = 0 ∧
            RETRY_AFTER_NO_RESPONSE ≤ o.time - st.waitStart ∧
            st.retryCount < waitMaxRetries)
        · rw [if_pos hr] at h
          injection h with h'
          rw [← h']
          exact Or.inr ⟨rfl, hr.1, hr.2.1, hr.2.2, rfl⟩
        · rw [if_neg hr] at h
          by_cases hht : cfg.response_timeout ≤ o.time - st.waitStart
          · rw [if_pos hht] at h; simp at h
          · rw [if_neg hht] at h
            by_cases hir : (ex = true ∧ optStrTruthy cfg.image_ready_selector = true ∧
                o.imageReady = true)
            · rw [if_pos hir] at h; simp at h
            · rw [if_neg hir] at h
              by_cases hin : effectiveInactivityTimeout ex
                  (max st.lastImageCount o.images.length) ≤ o.time - st.waitStart
              · rw [if_pos hin] at h
                split at h <;> simp at h
              · rw [if_neg hin] at h
                injection h with h'
                rw [← h']
                exact Or.inl rfl

/-- Witness for the amended C8: a normal continue keeps `wait_start`; the
no-response retry is the reset that the amended claim names. -/
theorem claim8_amended_witness :
    (initWaitState.waitStart = initWaitState.waitStart ∨
      (initWaitState.waitStart = obsC8a.time ∧ obsC8a.responseCount = 0 ∧
        RETRY_AFTER_NO_RESPONSE ≤ obsC8a.time - initWaitState.waitStart ∧
        initWaitState.retryCount < waitMaxRetries ∧
        initWaitState.retryCount = initWaitState.retryCount + 1)) ∧
    ((WaitLoopState.mk 12 1 0).waitStart = initWaitState.waitStart ∨
      ((WaitLoopState.mk 12 1 0).waitStart = (WaitObs.mk 12 none false none 0 false []).time ∧
        (WaitObs.mk 12 none false none 0 false []).responseCount = 0 ∧
        RETRY_AFTER_NO_RESPONSE ≤
          (WaitObs.mk 12 none false none 0 false []).time - initWaitState.waitStart ∧
        initWaitState.retryCount < waitMaxRetries ∧
        (WaitLoopState.mk 12 1 0).retryCount = initWaitState.retryCount + 1)) :=
  ⟨claim8_amended cfgC8 false initWaitState obsC8a initWaitState rfl,
    claim8_amended cfgC8 false initWaitState (WaitObs.mk 12 none false none 0 false [])
      (WaitLoopState.mk 12 1 0) rfl⟩

/-- Does a wait-loop step take one of the two inactivity-timeout exits? -/
def isInactivityExit : StepResult → Bool
  | .exitLoop ExitKind.inactivityBreak => true
  | .exitLoop ExitKind.inactivityImagesBreak => true
  | _ => false

/-- C9: the effective inactivity timeout is the base window plus 10 seconds
per captured image (`effectiveInactivityTimeout`, used verbatim by
`wait_step`); while the elapsed time is below it, the iteration never takes
an inactivity-timeout branch. -/
theorem claim9_extension (cfg : ServiceConfig) (ex : Bool) (st : WaitLoopState)
    (o : WaitObs)
    (h : o.time - st.waitStart <
      effectiveInactivityTimeout ex (max st.lastImageCount o.images.length)) :
    isInactivityExit (wait_step cfg ex st o) = false := by
  unfold wait_step
  repeat' split
  all_goals first
    | rfl
    | omega

/-- Config for the C9 witness (image expected, base window 50 s). -/
def cfgC9 : ServiceConfig := ⟨"chatgpt", ["img"], 50000, 90, none⟩

/-- Observation for the C9 witness: one captured image, polled at elapsed
W + 3 = 53 s < W + 10. -/
def obsC9 : WaitObs := ⟨53, none, false, none, 1, false, [[9]]⟩

/-- Witness for C9: with base window 50 and one capture, the poll at
t = 53 < 60 does not take the inactivity branch. -/
theorem claim9_extension_witness :
    (obsC9.time - initWaitState.waitStart <
      effectiveInactivityTimeout true (max initWaitState.lastImageCount obsC9.images.length)) ∧
    isInactivityExit (wait_step cfgC9 true initWaitState obsC9) = false :=
  ⟨by decide, claim9_extension cfgC9 true initWaitState obsC9 (by decide)⟩

end Specter
